import Mathlib

/-!
# Verification of the Synq migration core

Shallow embedding of `synq/core/database.py` and `synq/core/migration.py`.

Conventions of the embedding:
* Python strings are Lean `String`s; the character-level work is done on
  `List Char` with structural recursion so that everything evaluates.
* Database effects (SQLAlchemy sessions / connections) are modelled by
  oracle functions returning `Except String _`; an `Except.error` value is
  a `SQLAlchemyError` raised by the underlying driver.
* The `with session.begin()` context manager of SQLAlchemy is embedded as:
  commit the successor state on `Except.ok`, keep the entry state on
  `Except.error` (rollback).
-/

namespace Synq

/-- Python `str.isspace`-style whitespace used by `str.strip()`:
space, tab, newline, carriage return, vertical tab (11), form feed (12). -/
def isPySpace (c : Char) : Bool :=
  c == ' ' || c == '\t' || c == '\n' || c == '\r' || c.toNat == 11 || c.toNat == 12

/-- Drop the longest suffix of `l` whose characters satisfy `p`. -/
def dropEndWhile (p : Char → Bool) (l : List Char) : List Char :=
  (l.reverse.dropWhile p).reverse

/-- Embedding of Python `str.strip()` (no argument): trim whitespace at both ends. -/
def pyStripWs (l : List Char) : List Char :=
  dropEndWhile isPySpace (l.dropWhile isPySpace)

/-- Embedding of Python `str.split(sep)` for a one-character separator
(`";"` and `"\n"` in the source): keeps empty fields, `"" ↦ [""]`. -/
def splitOnChar (sep : Char) : List Char → List (List Char)
  | [] => [[]]
  | c :: cs =>
    match splitOnChar sep cs with
    | [] => [[c]]
    | h :: t => if c == sep then [] :: h :: t else (c :: h) :: t

/-- `line.startswith("--")` on a character list. -/
def startsDashDash : List Char → Bool
  | '-' :: '-' :: _ => true
  | _ => false

/-! ## DatabaseManager.test_connection (database.py lines 137-144)

The oracle `ex` models `conn.execute(text(...))` on a fresh connection. -/

/-- Embedding of `DatabaseManager.test_connection`: run `SELECT 1`, return
`True` on success, `False` on a `SQLAlchemyError`. -/
def test_connection (ex : String → Except String Unit) : Bool :=
  match ex "SELECT 1" with
  | .ok _ => true
  | .error _ => false

/-! ## DatabaseManager._ensure_migrations_table (database.py lines 52-64) -/

/-- A SQLAlchemy `select` over a single table, with its optional row limit. -/
structure SelectQuery where
  table : String
  limit : Option Nat
deriving DecidableEq

/-- The verification read issued by `_ensure_migrations_table`:
`self.migrations_table.select().limit(1)`. -/
def migrations_verify_query : SelectQuery :=
  { table := "synq_migrations", limit := some 1 }

/-- Embedding of `DatabaseManager._ensure_migrations_table`.
`createAll` is the outcome of `metadata.create_all(...)`; `runSelect` is the
outcome of executing a select on a fresh connection. -/
def ensure_migrations_table (createAll : Except String Unit)
    (runSelect : SelectQuery → Except String Unit) : Except String Unit :=
  match createAll with
  | .ok _ => .ok ()
  | .error e =>
    match runSelect migrations_verify_query with
    | .ok _ => .ok ()
    | .error _ => .error ("Failed to create or access migrations table: " ++ e)

/-! ## DatabaseManager.apply_migration (database.py lines 87-130) -/

/-- Embedding of `PendingMigration` (migration.py lines 27-32). -/
structure PendingMigration where
  filename : String
  sql_content : String
deriving DecidableEq

/-- The comment-stripping step of `apply_migration` (lines 102-109): split a
single `;`-delimited statement into lines, strip each line, drop blank lines
and full-line `--` comments, rejoin with newlines and strip the result. -/
def clean_statement (stmt : List Char) : List Char :=
  let kept := ((splitOnChar '\n' stmt).map pyStripWs).filter
    (fun line => !line.isEmpty && !startsDashDash line)
  pyStripWs (List.intercalate ['\n'] kept)

/-- The statement-splitting pipeline of `apply_migration` (lines 93-115):
split the SQL text on `;`, strip each piece, skip empty pieces, clean each
remaining piece of comment/blank lines, skip pieces that become empty. -/
def clean_statements (sql : String) : List String :=
  ((splitOnChar ';' sql.data).map pyStripWs).filterMap fun stmt =>
    if stmt.isEmpty then none
    else
      let c := clean_statement stmt
      if c.isEmpty then none else some (String.mk c)

/-- Database state visible to a migration: the opaque non-ledger content `db`
and the `synq_migrations` ledger (filename, applied_at pairs; `applied_at`
is an abstract timestamp). -/
structure DbState (Db : Type) where
  db : Db
  ledger : List (String × Nat)
deriving DecidableEq

/-- Execute a list of SQL statements in order inside the open transaction;
the oracle `ex` models `session.execute(text(stmt))` and may fail. -/
def run_statements {Db : Type} (ex : String → DbState Db → Except String (DbState Db)) :
    List String → DbState Db → Except String (DbState Db)
  | [], s => .ok s
  | stmt :: rest, s =>
    match ex stmt s with
    | .ok s' => run_statements ex rest s'
    | .error e => .error e

/-- The ledger insert of `apply_migration` (lines 118-122): insert
`(filename, utcnow)` into `synq_migrations`; the `unique=True` constraint on
`filename` (database.py line 46) makes a duplicate insert fail. -/
def insert_ledger {Db : Type} (s : DbState Db) (fn : String) (now : Nat) :
    Except String (DbState Db) :=
  if s.ledger.any (fun r => r.1 == fn) then
    .error ("UNIQUE constraint failed: synq_migrations.filename: " ++ fn)
  else
    .ok { s with ledger := s.ledger ++ [(fn, now)] }

/-- Body of the `with session.begin()` block of `apply_migration`: run the
cleaned statements in file order, then insert the ledger row, all in one
transaction. -/
def apply_migration_tx {Db : Type} (ex : String → DbState Db → Except String (DbState Db))
    (mig : PendingMigration) (now : Nat) (s : DbState Db) : Except String (DbState Db) :=
  match run_statements ex (clean_statements mig.sql_content) s with
  | .ok s' => insert_ledger s' mig.filename now
  | .error e => .error e

/-- Embedding of `DatabaseManager.apply_migration`: on success the context
manager commits the new state; on a `SQLAlchemyError` the transaction is
rolled back (the entry state is kept) and a `RuntimeError` naming the
filename and the underlying error is raised (returned as `some message`). -/
def apply_migration {Db : Type} (ex : String → DbState Db → Except String (DbState Db))
    (mig : PendingMigration) (now : Nat) (s : DbState Db) : DbState Db × Option String :=
  match apply_migration_tx ex mig now s with
  | .ok s' => (s', none)
  | .error e => (s, some ("Failed to apply migration " ++ mig.filename ++ ": " ++ e))

/-! ## MigrationManager.get_all_migrations (migration.py lines 240-274)

The store directory is modelled as a listing of `(filename, file content)`
pairs; `filepath` carries no extra information here and is omitted. -/

/-- Embedding of `MigrationFile` (migration.py lines 17-24), without the
redundant `filepath` field. `number` is a Python `int`. -/
structure MigrationFile where
  number : Int
  name : String
  filename : String
  sql_content : String
deriving DecidableEq

/-- `migrations_path.glob("*.sql")`: the filename ends in `.sql`. -/
def isSqlFile (fn : String) : Bool :=
  fn.data.reverse.take 4 == ['l', 'q', 's', '.']

/-- Python string `<=`: lexicographic comparison by code point. -/
def lexLe : List Char → List Char → Bool
  | [], _ => true
  | _ :: _, [] => false
  | a :: as, b :: bs =>
    if a.toNat < b.toNat then true
    else if b.toNat < a.toNat then false
    else lexLe as bs

/-- Insert `x` into a sorted list, keeping it sorted w.r.t. `le`. -/
def insertSorted {α : Type} (le : α → α → Bool) (x : α) : List α → List α
  | [] => [x]
  | y :: ys => if le x y then x :: y :: ys else y :: insertSorted le x ys

/-- Insertion sort; embedding of Python `sorted` for a total order key. -/
def sortLe {α : Type} (le : α → α → Bool) : List α → List α
  | [] => []
  | x :: xs => insertSorted le x (sortLe le xs)

/-- Python `str.split("_", 1)`: split at the first underscore; `none` when
there is no underscore (i.e. `len(parts) != 2`). -/
def splitFirstUnderscore : List Char → Option (List Char × List Char)
  | [] => none
  | c :: cs =>
    if c == '_' then some ([], cs)
    else
      match splitFirstUnderscore cs with
      | some (a, b) => some (c :: a, b)
      | none => none

/-- ASCII decimal digit test. -/
def isDigitChar (c : Char) : Bool :=
  48 ≤ c.toNat && c.toNat ≤ 57

/-- Value of a non-empty all-digit character list. -/
def digitsVal : List Char → Nat → Nat
  | [], acc => acc
  | c :: cs, acc => digitsVal cs (10 * acc + (c.toNat - 48))

/-- Embedding of Python `int(str)` restricted to ASCII: optional surrounding
whitespace, optional single sign, then one or more decimal digits;
anything else raises `ValueError` (returns `none`). -/
def pyInt (l : List Char) : Option Int :=
  let t := pyStripWs l
  let core : List Char → Option Nat := fun ds =>
    if ds.isEmpty then none
    else if ds.all isDigitChar then some (digitsVal ds 0) else none
  match t with
  | '-' :: ds => (core ds).map (fun n => -(n : Int))
  | '+' :: ds => (core ds).map (fun n => (n : Int))
  | ds => (core ds).map (fun n => (n : Int))

/-- The filename-parsing part of the `get_all_migrations` loop body
(lines 245-254): `Path.stem` (for a `*.sql` name: drop the suffix, keeping
the whole name when nothing is left, as for the dotfile `".sql"`), then
`split("_", 1)` and `int(parts[0])`; any failure is a skip. -/
def parseMigrationFilename (fn : String) : Option (Int × String) :=
  let stemBase := fn.data.take (fn.data.length - 4)
  let stem := if stemBase.isEmpty then fn.data else stemBase
  match splitFirstUnderscore stem with
  | none => none
  | some (numPart, namePart) =>
    match pyInt numPart with
    | none => none
    | some n => some (n, String.mk namePart)

/-- One iteration of the `get_all_migrations` loop body (lines 245-272):
parse the filename; on success build the `MigrationFile` with the entry's
content, otherwise skip the entry. -/
def migrationOfEntry (entry : String × String) : Option MigrationFile :=
  match parseMigrationFilename entry.1 with
  | none => none
  | some (n, name) =>
    some { number := n, name := name, filename := entry.1, sql_content := entry.2 }

/-- Embedding of `MigrationManager.get_all_migrations`:
`sorted(self.migrations_path.glob("*.sql"))` — lexicographic order on the
names — then parse each filename, silently skipping failures. -/
def get_all_migrations (listing : List (String × String)) : List MigrationFile :=
  (sortLe (fun a b => lexLe a.1.data b.1.data)
    (listing.filter (fun e => isSqlFile e.1))).filterMap migrationOfEntry

/-! ## MigrationManager.get_pending_migrations (migration.py lines 276-290) -/

/-- Embedding of `MigrationManager.get_pending_migrations`: keep, in store
order, the stored migrations whose filename is not in the applied set. -/
def get_pending_migrations (allMigs : List MigrationFile) (applied : List String) :
    List PendingMigration :=
  allMigs.foldl
    (fun acc m =>
      if applied.contains m.filename then acc
      else acc ++ [{ filename := m.filename, sql_content := m.sql_content }])
    []

/-! ## MigrationManager.create_migration_name (migration.py lines 203-226) -/

/-- ASCII lower-casing; embedding of Python `str.lower()` on ASCII input. -/
def pyToLower (c : Char) : Char :=
  if 65 ≤ c.toNat && c.toNat ≤ 90 then Char.ofNat (c.toNat + 32) else c

/-- Character class `[a-z0-9]`. -/
def isLowerDigit (c : Char) : Bool :=
  (97 ≤ c.toNat && c.toNat ≤ 122) || (48 ≤ c.toNat && c.toNat ≤ 57)

/-- Character class `[a-z0-9_]` of the slug regexes. -/
def isSlugChar (c : Char) : Bool :=
  isLowerDigit c || c == '_'

/-- `re.sub(r"[^a-z0-9_]", "_", name)`: map every character outside
`[a-z0-9_]` to an underscore. -/
def subBadToUnderscore (l : List Char) : List Char :=
  l.map fun c => if isSlugChar c then c else '_'

/-- `re.sub(r"_+", "_", name)`: collapse each maximal run of underscores to a
single underscore. `prev` records whether the previous input character was an
underscore. -/
def collapseUnderscoreRuns (prev : Bool) : List Char → List Char
  | [] => []
  | c :: cs =>
    if c == '_' then
      if prev then collapseUnderscoreRuns true cs
      else '_' :: collapseUnderscoreRuns true cs
    else c :: collapseUnderscoreRuns false cs

/-- Collapse each maximal run of characters outside `[a-z0-9]` to a single
underscore, keeping `[a-z0-9]` characters. -/
def collapseNonAlnumRuns (prev : Bool) : List Char → List Char
  | [] => []
  | c :: cs =>
    if isLowerDigit c then c :: collapseNonAlnumRuns false cs
    else
      if prev then collapseNonAlnumRuns true cs
      else '_' :: collapseNonAlnumRuns true cs

/-- Python `str.strip("_")`: trim underscores at both ends. -/
def trimUnderscores (l : List Char) : List Char :=
  dropEndWhile (· == '_') (l.dropWhile (· == '_'))

/-- The character pipeline of `create_migration_name` before the emptiness
fallback: lower-case and strip (line 207), substitute non-`[a-z0-9_]`
characters with `_` (line 210), collapse underscore runs (line 213), strip
underscores (line 216), truncate to 50 characters dropping underscores left
at the cut (lines 219-220). -/
def cmnPipeline (description : String) : List Char :=
  let name := pyStripWs (description.data.map pyToLower)
  let name := collapseUnderscoreRuns false (subBadToUnderscore name)
  let name := trimUnderscores name
  if name.length > 50 then dropEndWhile (· == '_') (name.take 50) else name

/-- Embedding of `MigrationManager.create_migration_name`: the character
pipeline above, falling back to `"migration"` when the result is empty. -/
def create_migration_name (description : String) : String :=
  if (cmnPipeline description).isEmpty then "migration"
  else String.mk (cmnPipeline description)

/-- Collapse each maximal run of characters outside `[a-z0-9_]` to one
underscore, keeping `[a-z0-9_]` characters (underscore runs survive). -/
def collapseRunsOutsideSlug (prev : Bool) : List Char → List Char
  | [] => []
  | c :: cs =>
    if isSlugChar c then c :: collapseRunsOutsideSlug false cs
    else
      if prev then collapseRunsOutsideSlug true cs
      else '_' :: collapseRunsOutsideSlug true cs

/-- The transformation described verbatim by the claim for
`create_migration_name`: lower-case, collapse each run of characters outside
`[a-z0-9_]` to a single underscore, trim leading/trailing underscores,
truncate to 50, placeholder `"migration"` when empty. Stated from the
spec's words, to be compared with the source function. -/
def create_migration_name_claimed (description : String) : String :=
  let name := description.data.map pyToLower
  let name := collapseRunsOutsideSlug false name
  let name := trimUnderscores name
  let name := name.take 50
  if name.isEmpty then "migration" else String.mk name

/-- Character pipeline of the amended description: a single pass that
collapses each maximal run of characters outside `[a-z0-9]` (so existing
underscores collapse together with their neighbours), then trims, then
truncates to 50 dropping underscores left at the cut. -/
def amnPipeline (description : String) : List Char :=
  let name := pyStripWs (description.data.map pyToLower)
  let name := collapseNonAlnumRuns false name
  let name := trimUnderscores name
  if name.length > 50 then dropEndWhile (· == '_') (name.take 50) else name

/-- The amended description of `create_migration_name`: as the claim, except
that each collapsed run is a maximal run of characters outside `[a-z0-9]`,
the input is whitespace-stripped first, and truncation to 50 also drops the
underscores left at the cut. -/
def create_migration_name_amended (description : String) : String :=
  if (amnPipeline description).isEmpty then "migration"
  else String.mk (amnPipeline description)

/-! ## MigrationManager.save_migration (migration.py lines 228-238) -/

/-- Decimal digits of `n`, most significant first; fuel-based embedding of
Python decimal formatting (`fuel ≥ number of digits` always holds for
`fuel = n + 1`). -/
def natDigitsAux : Nat → Nat → List Char
  | 0, _ => []
  | fuel + 1, n =>
    if n < 10 then [Char.ofNat (48 + n)]
    else natDigitsAux fuel (n / 10) ++ [Char.ofNat (48 + n % 10)]

/-- Decimal digit string of a natural number. -/
def natToDigits (n : Nat) : List Char :=
  natDigitsAux (n + 1) n

/-- Embedding of the Python format `f"{n:04d}"` for `n ≥ 0`: the decimal
digits, zero-padded on the left to a minimum width of 4. -/
def pad4 (n : Nat) : List Char :=
  List.replicate (4 - (natToDigits n).length) '0' ++ natToDigits n

/-- Embedding of the filename computed by `MigrationManager.save_migration`:
`f"{migration_number:04d}_{migration_name}.sql"`. -/
def save_migration_filename (n : Nat) (name : String) : String :=
  String.mk (pad4 n ++ '_' :: (name.data ++ ['.', 's', 'q', 'l']))

/-- Decidable matcher for the spec's filename pattern
`^\d{4}_[a-z0-9_]+\.sql$` (the slug class contains no `.`, so the first
non-slug character must start the final `.sql`). -/
def matchesMigrationPattern (s : String) : Bool :=
  match s.data with
  | d1 :: d2 :: d3 :: d4 :: u :: rest =>
    isDigitChar d1 && isDigitChar d2 && isDigitChar d3 && isDigitChar d4 &&
    (u == '_') &&
    (let body := rest.takeWhile isSlugChar
     !body.isEmpty && (rest.drop body.length == ['.', 's', 'q', 'l']))
  | _ => false

/-! ## MigrationManager.generate_sql (migration.py lines 50-158)

The operation data types live in `synq/core/diff.py` and
`synq/core/snapshot.py`, which are not part of the sources here; they are
modelled from the spec (§3 DATA MODEL). The generation logic itself is
translated from `migration.py`. -/

/-- Modelled from the spec: `ColumnDefinition` of `synq/core/snapshot.py`
(not under the provided sources) — name, dialect-neutral type string,
nullable/primary-key/unique/autoincrement flags, optional default. -/
structure ColumnDef where
  name : String
  type : String
  nullable : Bool
  primary_key : Bool
  unique : Bool
  autoincrement : Bool
  default : Option String
deriving DecidableEq

/-- Modelled from the spec: `IndexDefinition` — name, ordered column names,
unique flag. -/
structure IndexDef where
  name : String
  columns : List String
  unique : Bool
deriving DecidableEq

/-- Modelled from the spec: `ForeignKeyDefinition` — optional constraint
name, local columns, referenced table and columns, optional ON DELETE /
ON UPDATE actions. -/
structure FkDef where
  name : Option String
  columns : List String
  referred_table : String
  referred_columns : List String
  ondelete : Option String
  onupdate : Option String
deriving DecidableEq

/-- Modelled from the spec: `TableSnapshot` — table name and ordered
columns (indexes and foreign keys are separate operations and unused by
`CREATE TABLE` compilation here). -/
structure TableDef where
  name : String
  columns : List ColumnDef
deriving DecidableEq

/-- Modelled from the spec: `OperationType` of `synq/core/diff.py` — the
nine migration operation kinds. -/
inductive OperationType
  | createTable
  | dropTable
  | addColumn
  | dropColumn
  | alterColumn
  | createIndex
  | dropIndex
  | addForeignKey
  | dropForeignKey
deriving DecidableEq

/-- The payload stored in an operation's `old_definition`/`new_definition`
slot (Python is untyped here; each branch of `_operation_to_sql` expects a
particular variant). -/
inductive OpDefn
  | col (c : ColumnDef)
  | idx (i : IndexDef)
  | fk (f : FkDef)
  | table (t : TableDef)
deriving DecidableEq

/-- Modelled from the spec: `MigrationOperation` of `synq/core/diff.py` —
kind, table name, optional object name, optional old/new definitions. -/
structure MigrationOperation where
  operation_type : OperationType
  table_name : String
  object_name : Option String
  old_definition : Option OpDefn
  new_definition : Option OpDefn
deriving DecidableEq

/-- Accessing a definition slot as a column; a missing or differently-shaped
value raises an `AttributeError` (an `Exception` caught by `generate_sql`). -/
def asCol : Option OpDefn → Except String ColumnDef
  | some (.col c) => .ok c
  | _ => .error "AttributeError: definition is not a column"

/-- Accessing a definition slot as an index. -/
def asIdx : Option OpDefn → Except String IndexDef
  | some (.idx i) => .ok i
  | _ => .error "AttributeError: definition is not an index"

/-- Accessing a definition slot as a foreign key. -/
def asFk : Option OpDefn → Except String FkDef
  | some (.fk f) => .ok f
  | _ => .error "AttributeError: definition is not a foreign key"

/-- Accessing a definition slot as a table snapshot. -/
def asTable : Option OpDefn → Except String TableDef
  | some (.table t) => .ok t
  | _ => .error "AttributeError: definition is not a table"

/-- Python `f"{x}"` on an `Optional[str]`: `None` prints as `"None"`. -/
def optStr : Option String → String
  | some s => s
  | none => "None"

/-- Join a list of strings with a separator (Python `sep.join(parts)`). -/
def joinWith (sep : String) : List String → String
  | [] => ""
  | [s] => s
  | s :: rest => s ++ sep ++ joinWith sep rest

/-- Embedding of `MigrationManager._operation_to_sql`. `compile` is the
oracle for the SQLAlchemy `CreateTable(...).compile(engine)` call of the
CREATE_TABLE branch, which may raise; every other branch is pure string
building. An `Except.error` is an exception escaping the call. -/
def operation_to_sql (compile : TableDef → Except String String)
    (op : MigrationOperation) : Except String String :=
  match op.operation_type with
  | .createTable =>
    match asTable op.new_definition with
    | .error e => .error e
    | .ok t =>
      match compile t with
      | .error e => .error e
      | .ok sql => .ok (String.mk (pyStripWs sql.data) ++ ";")
  | .dropTable => .ok ("DROP TABLE " ++ op.table_name ++ ";")
  | .addColumn =>
    match asCol op.new_definition with
    | .error e => .error e
    | .ok c =>
      let parts := ["ADD COLUMN " ++ c.name ++ " " ++ c.type]
        ++ (if c.nullable then [] else ["NOT NULL"])
        ++ (match c.default with
            | some d => if d.data.isEmpty then [] else ["DEFAULT " ++ d]
            | none => [])
        ++ (if c.unique then ["UNIQUE"] else [])
      .ok ("ALTER TABLE " ++ op.table_name ++ " " ++ joinWith " " parts ++ ";")
  | .dropColumn =>
    .ok ("ALTER TABLE " ++ op.table_name ++ " DROP COLUMN " ++
      optStr op.object_name ++ ";")
  | .alterColumn =>
    match asCol op.old_definition with
    | .error e => .error e
    | .ok oldCol =>
      match asCol op.new_definition with
      | .error e => .error e
      | .ok newCol =>
        .ok ("-- ALTER COLUMN " ++ op.table_name ++ "." ++ optStr op.object_name ++ "\n"
          ++ "-- Note: Column alteration may require database-specific syntax\n"
          ++ "-- Old: " ++ oldCol.name ++ " " ++ oldCol.type ++ " "
          ++ (if oldCol.nullable then "NULL" else "NOT NULL") ++ "\n"
          ++ "-- New: " ++ newCol.name ++ " " ++ newCol.type ++ " "
          ++ (if newCol.nullable then "NULL" else "NOT NULL"))
  | .createIndex =>
    match asIdx op.new_definition with
    | .error e => .error e
    | .ok i =>
      .ok ("CREATE " ++ (if i.unique then "UNIQUE " else "") ++ "INDEX " ++ i.name
        ++ " ON " ++ op.table_name ++ " (" ++ joinWith ", " i.columns ++ ");")
  | .dropIndex => .ok ("DROP INDEX " ++ optStr op.object_name ++ ";")
  | .addForeignKey =>
    match asFk op.new_definition with
    | .error e => .error e
    | .ok f =>
      let constraintName := match f.name with
        | some n => if n.data.isEmpty then "" else "CONSTRAINT " ++ n ++ " "
        | none => ""
      let fkClause := constraintName ++ "FOREIGN KEY (" ++ joinWith ", " f.columns
        ++ ") REFERENCES " ++ f.referred_table ++ " (" ++ joinWith ", " f.referred_columns ++ ")"
      let fkClause := fkClause ++ (match f.ondelete with
        | some d => if d.data.isEmpty then "" else " ON DELETE " ++ d
        | none => "")
      let fkClause := fkClause ++ (match f.onupdate with
        | some u => if u.data.isEmpty then "" else " ON UPDATE " ++ u
        | none => "")
      .ok ("ALTER TABLE " ++ op.table_name ++ " ADD " ++ fkClause ++ ";")
  | .dropForeignKey =>
    match op.object_name with
    | some n =>
      if n.data.isEmpty then
        .ok ("-- DROP FOREIGN KEY on " ++ op.table_name ++ " (no constraint name available)")
      else
        .ok ("ALTER TABLE " ++ op.table_name ++ " DROP CONSTRAINT " ++ n ++ ";")
    | none =>
      .ok ("-- DROP FOREIGN KEY on " ++ op.table_name ++ " (no constraint name available)")

/-- The lines that one iteration of the `generate_sql` loop appends to
`sql_statements`: on success a header comment, the SQL and a blank line
(nothing if the SQL is empty); on any exception a single WARNING comment
plus a blank line. `opRepr` is Python `str(operation)`. -/
def perOpLines (compile : TableDef → Except String String)
    (opRepr : MigrationOperation → String) (op : MigrationOperation) : List String :=
  match operation_to_sql compile op with
  | .ok sql => if sql.data.isEmpty then [] else ["-- " ++ opRepr op, sql, ""]
  | .error e => ["-- WARNING: Could not generate SQL for " ++ opRepr op ++ ": " ++ e, ""]

/-- Embedding of `MigrationManager.generate_sql`: empty input yields `""`,
otherwise the newline-join of every operation's appended lines. Each
per-operation exception is caught inside the loop, so the function is
total for every oracle. -/
def generate_sql (compile : TableDef → Except String String)
    (opRepr : MigrationOperation → String) (ops : List MigrationOperation) : String :=
  if ops.isEmpty then ""
  else joinWith "\n" (ops.flatMap (perOpLines compile opRepr))

/-! ## Predicates and concrete witness data -/

/-- The migration-content shape of a comment-only file: every `;`-chunk,
once stripped, consists solely of lines that strip to nothing or to a
full-line `--` comment. -/
def comment_only_sql (sql : String) : Prop :=
  ∀ stmt ∈ (splitOnChar ';' sql.data).map pyStripWs,
    ∀ line ∈ splitOnChar '\n' stmt,
      pyStripWs line = [] ∨ startsDashDash (pyStripWs line) = true

instance (sql : String) : Decidable (comment_only_sql sql) := by
  unfold comment_only_sql
  infer_instance

/-- An execution oracle whose every statement fails with a database error. -/
def failing_ex : String → DbState (List String) → Except String (DbState (List String)) :=
  fun _ _ => .error "no such table: users"

/-- An execution oracle that records each executed statement in `db`. -/
def logging_ex : String → DbState (List String) → Except String (DbState (List String)) :=
  fun stmt s => .ok { s with db := s.db ++ [stmt] }

/-- A concrete ALTER_COLUMN operation (witness data for the generator). -/
def alter_col_op : MigrationOperation :=
  { operation_type := .alterColumn
    table_name := "users"
    object_name := some "email"
    old_definition := some (.col
      { name := "email", type := "VARCHAR(50)", nullable := true, primary_key := false,
        unique := false, autoincrement := false, default := none })
    new_definition := some (.col
      { name := "email", type := "VARCHAR(100)", nullable := false, primary_key := false,
        unique := false, autoincrement := false, default := none }) }

/-- A concrete CREATE_TABLE operation whose DDL compilation will fail
(witness data for the generator's exception fallback). -/
def bad_create_op : MigrationOperation :=
  { operation_type := .createTable
    table_name := "users"
    object_name := none
    old_definition := none
    new_definition := some (.table { name := "users", columns := [] }) }

/-! ## Theorems -/

/-- C10: `test_connection` never raises on a database failure: it returns
`True` exactly when executing `SELECT 1` on a fresh connection succeeds and
`False` on any database error (the embedding is total in the oracle's
outcome, mirroring the `except SQLAlchemyError: return False` handler). -/
theorem test_connection_spec (ex : String → Except String Unit) :
    (test_connection ex = true ↔ ex "SELECT 1" = .ok ()) ∧
    (test_connection ex = false ↔ ∃ e, ex "SELECT 1" = .error e) := by
  rcases hx : ex "SELECT 1" with e | u
  · constructor
    · simp [test_connection, hx]
    · refine ⟨fun _ => ⟨e, rfl⟩, fun _ => ?_⟩
      simp [test_connection, hx]
  · cases u
    constructor
    · simp [test_connection, hx]
    · simp [test_connection, hx]

/-- C8: ensuring the ledger table exists is idempotent: if creation
succeeds no error is raised; if creation fails, a verification read limited
to one row is issued, and only when that read also fails is a distinct
error naming the underlying cause raised. -/
theorem ensure_migrations_table_spec (runSelect : SelectQuery → Except String Unit) :
    migrations_verify_query.limit = some 1 ∧
    ensure_migrations_table (.ok ()) runSelect = .ok () ∧
    (∀ e, runSelect migrations_verify_query = .ok () →
      ensure_migrations_table (.error e) runSelect = .ok ()) ∧
    (∀ e e', runSelect migrations_verify_query = .error e' →
      ensure_migrations_table (.error e) runSelect =
        .error ("Failed to create or access migrations table: " ++ e)) := by
  refine ⟨rfl, rfl, ?_, ?_⟩
  · intro e h
    simp [ensure_migrations_table, h]
  · intro e e' h
    simp [ensure_migrations_table, h]

/-- Witness for C8 at a concrete failing creation and failing read. -/
theorem ensure_migrations_table_spec_witness :
    (fun _ => (Except.error "connection refused" : Except String Unit))
        migrations_verify_query = Except.error "connection refused" ∧
    ensure_migrations_table (.error "permission denied")
        (fun _ => Except.error "connection refused") =
      .error "Failed to create or access migrations table: permission denied" :=
  ⟨rfl,
    (ensure_migrations_table_spec (fun _ => Except.error "connection refused")).2.2.2
      "permission denied" "connection refused" rfl⟩

/-- C1: if anything in `apply_migration` fails — a statement or the ledger
insert — the transaction is rolled back (the resulting database state and
ledger equal the state before the attempt) and the surfaced error names the
offending filename and the underlying database error. -/
theorem apply_migration_atomic {Db : Type}
    (ex : String → DbState Db → Except String (DbState Db))
    (mig : PendingMigration) (now : Nat) (s : DbState Db) (err : String)
    (h : (apply_migration ex mig now s).2 = some err) :
    (apply_migration ex mig now s).1 = s ∧
    ∃ e, err = "Failed to apply migration " ++ mig.filename ++ ": " ++ e := by
  unfold apply_migration at h ⊢
  split at h
  · exact Option.noConfusion (h : (none : Option String) = some err)
  · next e heq =>
    refine ⟨rfl, e, ?_⟩
    have h' : some ("Failed to apply migration " ++ mig.filename ++ ": " ++ e) = some err := h
    exact (Option.some.inj h').symm

/-- Witness for C1: a failing execution oracle rolls back and surfaces the
filename with the underlying error. -/
theorem apply_migration_atomic_witness :
    (apply_migration failing_ex ⟨"0001_init.sql", "DROP TABLE users;"⟩ 7
        ⟨["seed"], []⟩).2 =
      some "Failed to apply migration 0001_init.sql: no such table: users" ∧
    ((apply_migration failing_ex ⟨"0001_init.sql", "DROP TABLE users;"⟩ 7
        ⟨["seed"], []⟩).1 = ⟨["seed"], []⟩ ∧
      ∃ e, "Failed to apply migration 0001_init.sql: no such table: users" =
        "Failed to apply migration 0001_init.sql: " ++ e) :=
  ⟨rfl, apply_migration_atomic failing_ex _ 7 _ _ rfl⟩

/-- C2: `apply_migration` splits the SQL text on `;`, discards blank
statements and full-line `--` comment lines, executes the remaining
statements in file order inside the transaction, and on success inserts one
ledger row `(filename, now)` in the same transaction before committing.
The second conjunct exhibits the splitting/cleaning pipeline on a file
containing a comment line, a blank-only statement and a trailing empty
chunk. -/
theorem apply_migration_executes {Db : Type}
    (ex : String → DbState Db → Except String (DbState Db))
    (mig : PendingMigration) (now : Nat) (s s' : DbState Db)
    (hrun : run_statements ex (clean_statements mig.sql_content) s = .ok s')
    (hfree : s'.ledger.any (fun r => r.1 == mig.filename) = false) :
    apply_migration ex mig now s =
      ({ s' with ledger := s'.ledger ++ [(mig.filename, now)] }, none) ∧
    clean_statements "CREATE TABLE a (x INT);\n-- audit note\nINSERT INTO a VALUES (1);\n   ;" =
      ["CREATE TABLE a (x INT)", "INSERT INTO a VALUES (1)"] := by
  constructor
  · unfold apply_migration apply_migration_tx insert_ledger
    rw [hrun]
    simp [hfree]
  · rfl

/-- Witness for C2 with a logging oracle: the two surviving statements are
executed in order and the ledger row is appended. -/
theorem apply_migration_executes_witness :
    run_statements logging_ex
        (clean_statements "CREATE TABLE a (x INT);\n-- audit note\nINSERT INTO a VALUES (1);\n   ;")
        ⟨[], []⟩ =
      .ok ⟨["CREATE TABLE a (x INT)", "INSERT INTO a VALUES (1)"], []⟩ ∧
    ((⟨["CREATE TABLE a (x INT)", "INSERT INTO a VALUES (1)"], []⟩ :
        DbState (List String)).ledger.any (fun r => r.1 == "0002_create_a.sql") = false) ∧
    apply_migration logging_ex
        ⟨"0002_create_a.sql",
          "CREATE TABLE a (x INT);\n-- audit note\nINSERT INTO a VALUES (1);\n   ;"⟩ 42
        ⟨[], []⟩ =
      (⟨["CREATE TABLE a (x INT)", "INSERT INTO a VALUES (1)"], [("0002_create_a.sql", 42)]⟩,
        none) :=
  ⟨rfl, rfl,
    (apply_migration_executes logging_ex
      ⟨"0002_create_a.sql",
        "CREATE TABLE a (x INT);\n-- audit note\nINSERT INTO a VALUES (1);\n   ;"⟩ 42
      ⟨[], []⟩ ⟨["CREATE TABLE a (x INT)", "INSERT INTO a VALUES (1)"], []⟩ rfl rfl).1⟩

/-- A statement all of whose lines strip to nothing or to a full-line
comment cleans to the empty statement. -/
theorem clean_statement_nil_of_comments {stmt : List Char}
    (h : ∀ line ∈ splitOnChar '\n' stmt,
      pyStripWs line = [] ∨ startsDashDash (pyStripWs line) = true) :
    clean_statement stmt = [] := by
  unfold clean_statement
  have hk : ((splitOnChar '\n' stmt).map pyStripWs).filter
      (fun line => !line.isEmpty && !startsDashDash line) = [] := by
    rw [List.filter_eq_nil_iff]
    intro line hline
    rcases List.mem_map.mp hline with ⟨raw, hraw, rfl⟩
    rcases h raw hraw with h0 | h0
    · simp [h0]
    · simp [h0]
  rw [hk]
  rfl

/-- Comment-only SQL content produces an empty statement list. -/
theorem clean_statements_nil_of_comments {sql : String} (h : comment_only_sql sql) :
    clean_statements sql = [] := by
  unfold clean_statements
  rw [List.filterMap_eq_nil_iff]
  intro stmt hstmt
  by_cases he : stmt.isEmpty
  · simp [he]
  · have hcl := clean_statement_nil_of_comments (h stmt hstmt)
    simp [he, hcl]

/-- C9: applying a migration whose content is only comments, whitespace and
semicolons executes zero SQL statements (the state is untouched for every
oracle) yet still inserts the ledger row and succeeds. -/
theorem apply_migration_comment_only {Db : Type}
    (ex : String → DbState Db → Except String (DbState Db))
    (now : Nat) (s : DbState Db) (fn sql : String)
    (hc : comment_only_sql sql)
    (hfree : s.ledger.any (fun r => r.1 == fn) = false) :
    apply_migration ex ⟨fn, sql⟩ now s =
      ({ s with ledger := s.ledger ++ [(fn, now)] }, none) := by
  have h0 : clean_statements (PendingMigration.mk fn sql).sql_content = [] :=
    clean_statements_nil_of_comments hc
  unfold apply_migration apply_migration_tx insert_ledger
  rw [h0]
  simp [run_statements, hfree]

/-- Witness for C9 on a concrete comment-only migration file. -/
theorem apply_migration_comment_only_witness :
    comment_only_sql "-- snapshot only\n;\n   \n-- end" ∧
    ((⟨["x"], [("0001_init.sql", 1)]⟩ : DbState (List String)).ledger.any
        (fun r => r.1 == "0002_comments.sql") = false) ∧
    apply_migration logging_ex ⟨"0002_comments.sql", "-- snapshot only\n;\n   \n-- end"⟩ 9
        ⟨["x"], [("0001_init.sql", 1)]⟩ =
      (⟨["x"], [("0001_init.sql", 1), ("0002_comments.sql", 9)]⟩, none) :=
  ⟨by decide, rfl,
    apply_migration_comment_only logging_ex 9 ⟨["x"], [("0001_init.sql", 1)]⟩
      "0002_comments.sql" "-- snapshot only\n;\n   \n-- end" (by decide) rfl⟩

/-- The `get_pending_migrations` loop is a filter-and-map over the store. -/
theorem get_pending_foldl (applied : List String) (allMigs : List MigrationFile)
    (acc : List PendingMigration) :
    allMigs.foldl
      (fun acc m =>
        if applied.contains m.filename then acc
        else acc ++ [{ filename := m.filename, sql_content := m.sql_content }]) acc =
    acc ++ (allMigs.filter (fun m => !applied.contains m.filename)).map
      (fun m => { filename := m.filename, sql_content := m.sql_content }) := by
  induction allMigs generalizing acc with
  | nil => simp
  | cons m rest ih =>
    rw [List.foldl_cons, List.filter_cons]
    cases hm : applied.contains m.filename with
    | true =>
      exact ih acc
    | false =>
      show List.foldl _
        (acc ++ [({ filename := m.filename, sql_content := m.sql_content } : PendingMigration)])
        rest = _
      rw [ih, List.append_assoc]
      rfl

/-- C4: `get_pending_migrations` returns exactly the stored migrations whose
filenames are absent from the applied set, in store order; on the two-file
scenario with `0001_init.sql` applied it returns exactly the
`0002_add_email.sql` entry. -/
theorem get_pending_migrations_spec :
    (∀ (allMigs : List MigrationFile) (applied : List String),
      get_pending_migrations allMigs applied =
        (allMigs.filter (fun m => !applied.contains m.filename)).map
          (fun m => { filename := m.filename, sql_content := m.sql_content })) ∧
    get_pending_migrations
        (get_all_migrations [("0001_init.sql", "c1"), ("0002_add_email.sql", "c2")])
        ["0001_init.sql"] =
      [{ filename := "0002_add_email.sql", sql_content := "c2" }] := by
  constructor
  · intro allMigs applied
    unfold get_pending_migrations
    simpa using get_pending_foldl applied allMigs []
  · rfl

/-- Substituting non-`[a-z0-9_]` characters with `_` and then collapsing
underscore runs is the same as collapsing, in a single pass, each maximal
run of characters outside `[a-z0-9]` to one underscore. -/
theorem collapse_sub_eq_collapseNonAlnum (l : List Char) (prev : Bool) :
    collapseUnderscoreRuns prev (subBadToUnderscore l) = collapseNonAlnumRuns prev l := by
  induction l generalizing prev with
  | nil => rfl
  | cons c cs ih =>
    by_cases h : isLowerDigit c = true
    · have hslug : isSlugChar c = true := by simp [isSlugChar, h]
      have hne : (c == '_') = false := by
        by_cases hc : c = '_'
        · subst hc
          simp [isLowerDigit] at h
        · simp [hc]
      simp only [subBadToUnderscore, List.map_cons, collapseUnderscoreRuns,
        collapseNonAlnumRuns, hslug, h, hne, if_true, if_false, Bool.false_eq_true,
        ite_true, ite_false]
      exact congrArg (c :: ·) (ih false)
    · by_cases h2 : c = '_'
      · subst h2
        have hslug : isSlugChar '_' = true := by decide
        cases prev with
        | true =>
          simp only [subBadToUnderscore, List.map_cons, collapseUnderscoreRuns,
            collapseNonAlnumRuns, hslug, h, ite_true, ite_false]
          simp only [beq_self_eq_true, ite_true, Bool.false_eq_true, ite_false]
          exact ih true
        | false =>
          simp only [subBadToUnderscore, List.map_cons, collapseUnderscoreRuns,
            collapseNonAlnumRuns, hslug, h, ite_true, ite_false]
          simp only [beq_self_eq_true, ite_true, Bool.false_eq_true, ite_false]
          exact congrArg ('_' :: ·) (ih true)
      · have hslug : isSlugChar c = false := by
          simp only [isSlugChar, Bool.or_eq_true, beq_iff_eq]
          simp [h2]
          simpa using h
        have hne : (c == '_') = false := by simp [h2]
        cases prev with
        | true =>
          simp only [subBadToUnderscore, List.map_cons, collapseUnderscoreRuns,
            collapseNonAlnumRuns, hslug, h, hne, Bool.false_eq_true, ite_false,
            beq_self_eq_true, ite_true]
          exact ih true
        | false =>
          simp only [subBadToUnderscore, List.map_cons, collapseUnderscoreRuns,
            collapseNonAlnumRuns, hslug, h, hne, Bool.false_eq_true, ite_false,
            beq_self_eq_true, ite_true]
          exact congrArg ('_' :: ·) (ih true)

/-- Counterexample to C6 as stated: on `"a__b"` the code collapses the
pre-existing double underscore (the claimed transformation, which only
collapses runs of characters outside `[a-z0-9_]`, keeps it). -/
theorem create_migration_name_counterexample :
    create_migration_name "a__b" = "a_b" ∧
    create_migration_name_claimed "a__b" = "a__b" ∧
    create_migration_name "a__b" ≠ create_migration_name_claimed "a__b" := by
  refine ⟨rfl, rfl, ?_⟩
  decide

/-- C6 (amended): `create_migration_name` lower-cases and
whitespace-strips the description, collapses each maximal run of characters
outside `[a-z0-9]` — underscores included — to a single underscore, trims
leading/trailing underscores, truncates to 50 characters dropping the
underscores left at the cut, and returns `"migration"` when the result is
empty; `"Add Email Column!!"` yields `add_email_column`. -/
theorem create_migration_name_amended_spec (description : String) :
    create_migration_name description = create_migration_name_amended description ∧
    create_migration_name "Add Email Column!!" = "add_email_column" := by
  constructor
  · have hpipe : cmnPipeline description = amnPipeline description := by
      simp only [cmnPipeline, amnPipeline, collapse_sub_eq_collapseNonAlnum]
    unfold create_migration_name create_migration_name_amended
    rw [hpipe]
  · rfl

/-- Membership in an insertion step. -/
theorem mem_insertSorted {α : Type} (le : α → α → Bool) (x a : α) (l : List α) :
    a ∈ insertSorted le x l ↔ a = x ∨ a ∈ l := by
  induction l with
  | nil => simp [insertSorted]
  | cons y ys ih =>
    cases h : le x y with
    | true => simp [insertSorted, h]
    | false =>
      simp [insertSorted, h, ih]
      tauto

/-- Insertion sort preserves membership. -/
theorem mem_sortLe {α : Type} (le : α → α → Bool) (a : α) (l : List α) :
    a ∈ sortLe le l ↔ a ∈ l := by
  induction l with
  | nil => simp [sortLe]
  | cons x xs ih => simp [sortLe, mem_insertSorted, ih]

/-- Inserting into a sorted list keeps it sorted, for a total transitive
comparison. -/
theorem pairwise_insertSorted {α : Type} (le : α → α → Bool)
    (htot : ∀ a b, le a b = true ∨ le b a = true)
    (htrans : ∀ a b c, le a b = true → le b c = true → le a c = true)
    (x : α) (l : List α) (hl : l.Pairwise (fun a b => le a b = true)) :
    (insertSorted le x l).Pairwise (fun a b => le a b = true) := by
  induction l with
  | nil => simp [insertSorted]
  | cons y ys ih =>
    rcases List.pairwise_cons.mp hl with ⟨hy, hys⟩
    cases h : le x y with
    | true =>
      simp only [insertSorted, h, ite_true]
      refine List.pairwise_cons.mpr ⟨?_, hl⟩
      intro b hb
      rcases List.mem_cons.mp hb with rfl | hb
      · exact h
      · exact htrans x y b h (hy b hb)
    | false =>
      simp only [insertSorted, h, Bool.false_eq_true, ite_false]
      refine List.pairwise_cons.mpr ⟨?_, ih hys⟩
      intro b hb
      rcases (mem_insertSorted le x b ys).mp hb with rfl | hb
      · rcases htot b y with hxy | hyx
        · rw [h] at hxy
          cases hxy
        · exact hyx
      · exact hy b hb

/-- Insertion sort sorts, for a total transitive comparison. -/
theorem pairwise_sortLe {α : Type} (le : α → α → Bool)
    (htot : ∀ a b, le a b = true ∨ le b a = true)
    (htrans : ∀ a b c, le a b = true → le b c = true → le a c = true)
    (l : List α) : (sortLe le l).Pairwise (fun a b => le a b = true) := by
  induction l with
  | nil => simp [sortLe]
  | cons x xs ih => exact pairwise_insertSorted le htot htrans x _ ih

/-- Lexicographic comparison is total. -/
theorem lexLe_total (a b : List Char) : lexLe a b = true ∨ lexLe b a = true := by
  induction a generalizing b with
  | nil => left; rfl
  | cons c cs ih =>
    cases b with
    | nil => right; rfl
    | cons d ds =>
      by_cases h1 : c.toNat < d.toNat
      · left
        simp [lexLe, h1]
      · by_cases h2 : d.toNat < c.toNat
        · right
          simp [lexLe, h2]
        · rcases ih ds with h | h
          · left
            simp [lexLe, h1, h2, h]
          · right
            simp [lexLe, h1, h2, h]

/-- From a successful lexicographic comparison: strictly smaller head, or
equal heads and comparable tails. -/
theorem lexLe_cases {x y : Char} {xs ys : List Char}
    (h : lexLe (x :: xs) (y :: ys) = true) :
    x.toNat < y.toNat ∨ (x.toNat = y.toNat ∧ lexLe xs ys = true) := by
  by_cases h1 : x.toNat < y.toNat
  · exact Or.inl h1
  · by_cases h2 : y.toNat < x.toNat
    · simp [lexLe, h1, h2] at h
    · refine Or.inr ⟨by omega, ?_⟩
      simpa [lexLe, h1, h2] using h

/-- Lexicographic comparison is transitive. -/
theorem lexLe_trans : ∀ {a b c : List Char},
    lexLe a b = true → lexLe b c = true → lexLe a c = true := by
  intro a
  induction a with
  | nil => intro b c _ _; rfl
  | cons x xs ih =>
    intro b c hab hbc
    cases b with
    | nil => simp [lexLe] at hab
    | cons y ys =>
      cases c with
      | nil => simp [lexLe] at hbc
      | cons z zs =>
        rcases lexLe_cases hab with h1 | ⟨h1, h1'⟩ <;>
          rcases lexLe_cases hbc with h2 | ⟨h2, h2'⟩
        · have : x.toNat < z.toNat := Nat.lt_trans h1 h2
          simp [lexLe, this]
        · have : x.toNat < z.toNat := by omega
          simp [lexLe, this]
        · have : x.toNat < z.toNat := by omega
          simp [lexLe, this]
        · have hxz : x.toNat = z.toNat := by omega
          have hn1 : ¬ x.toNat < z.toNat := by omega
          have hn2 : ¬ z.toNat < x.toNat := by omega
          simp [lexLe, hn1, hn2, ih h1' h2']

/-- Pairwise relations survive `filterMap` when the mapping preserves them. -/
theorem pairwise_filterMap_of {α β : Type} {R : α → α → Prop} {S : β → β → Prop}
    (f : α → Option β)
    (hf : ∀ a b x y, R a b → f a = some x → f b = some y → S x y) :
    ∀ {l : List α}, l.Pairwise R → (l.filterMap f).Pairwise S := by
  intro l hl
  induction hl with
  | nil => simp
  | @cons a l' hr _ ih =>
    cases hfa : f a with
    | none => simpa [List.filterMap_cons, hfa] using ih
    | some x =>
      rw [List.filterMap_cons, hfa]
      refine List.pairwise_cons.mpr ⟨?_, ih⟩
      intro y hy
      rcases List.mem_filterMap.mp hy with ⟨b, hb, hfb⟩
      exact hf a b x y (hr b hb) hfa hfb

/-- A successfully parsed store entry keeps its filename. -/
theorem migrationOfEntry_filename {e : String × String} {m : MigrationFile}
    (h : migrationOfEntry e = some m) : m.filename = e.1 := by
  unfold migrationOfEntry at h
  split at h
  · exact Option.noConfusion h
  · cases h
    rfl

/-- Whether a store entry parses depends only on its filename. -/
theorem migrationOfEntry_none_content {fn c c' : String}
    (h : migrationOfEntry (fn, c) = none) : migrationOfEntry (fn, c') = none := by
  unfold migrationOfEntry at h ⊢
  split at h
  · next heq =>
    rw [heq]
  · exact Option.noConfusion h

/-- C5 (amended): `get_all_migrations` returns exactly the stored `*.sql`
files whose names parse as `<number>_<name>`, in ascending lexicographic
filename order (which coincides with numeric order while all stored
numbers are zero-padded to the same width): the output is sorted (first
conjunct), every returned entry comes from a store entry that parses
(soundness, second conjunct), a filename that does not parse is silently
skipped rather than causing a propagated error (third conjunct), and every
`*.sql` store entry that parses contributes its migration to the output
(completeness, fourth conjunct). -/
theorem get_all_migrations_spec (listing : List (String × String)) :
    (get_all_migrations listing).Pairwise
      (fun a b => lexLe a.filename.data b.filename.data = true) ∧
    (∀ m ∈ get_all_migrations listing, ∃ e ∈ listing, migrationOfEntry e = some m) ∧
    (∀ e ∈ listing, migrationOfEntry e = none →
      ∀ m ∈ get_all_migrations listing, m.filename ≠ e.1) ∧
    (∀ e ∈ listing, isSqlFile e.1 = true →
      ∀ m, migrationOfEntry e = some m → m ∈ get_all_migrations listing) := by
  refine ⟨?_, ?_, ?_, ?_⟩
  · have hsorted := pairwise_sortLe (fun a b : String × String => lexLe a.1.data b.1.data)
      (fun a b => lexLe_total a.1.data b.1.data)
      (fun a b c hab hbc => lexLe_trans hab hbc)
      (listing.filter (fun e => isSqlFile e.1))
    exact pairwise_filterMap_of migrationOfEntry
      (fun a b x y hr hfa hfb => by
        rw [migrationOfEntry_filename hfa, migrationOfEntry_filename hfb]
        exact hr) hsorted
  · intro m hm
    rcases List.mem_filterMap.mp hm with ⟨e, he, hfe⟩
    refine ⟨e, ?_, hfe⟩
    have he' := (mem_sortLe _ e _).mp he
    exact (List.mem_filter.mp he').1
  · intro e he hnone m hm hfn
    rcases List.mem_filterMap.mp hm with ⟨e', he', hfe'⟩
    have hfn' : m.filename = e'.1 := migrationOfEntry_filename hfe'
    have heq : e'.1 = e.1 := by rw [← hfn', hfn]
    have hnone' : migrationOfEntry (e.1, e'.2) = none :=
      migrationOfEntry_none_content (by simpa using hnone)
    have hsome : migrationOfEntry (e.1, e'.2) = some m := by
      rw [← heq]
      simpa using hfe'
    rw [hnone'] at hsome
    exact Option.noConfusion hsome
  · intro e he hsql m hfe
    refine List.mem_filterMap.mpr ⟨e, ?_, hfe⟩
    exact (mem_sortLe _ e _).mpr (List.mem_filter.mpr ⟨he, hsql⟩)

/-- Witness for C5: on a three-file store the unparseable `junk.sql` is
skipped while the parseable `0001_a.sql` entry appears in the output. -/
theorem get_all_migrations_spec_witness :
    (("junk.sql", "z") ∈ [("0002_b.sql", "y"), ("junk.sql", "z"), ("0001_a.sql", "x")]) ∧
    migrationOfEntry ("junk.sql", "z") = none ∧
    (("0001_a.sql", "x") ∈ [("0002_b.sql", "y"), ("junk.sql", "z"), ("0001_a.sql", "x")]) ∧
    isSqlFile "0001_a.sql" = true ∧
    migrationOfEntry ("0001_a.sql", "x") =
      some { number := 1, name := "a", filename := "0001_a.sql", sql_content := "x" } ∧
    (({ number := 1, name := "a", filename := "0001_a.sql", sql_content := "x" } :
        MigrationFile) ∈
      get_all_migrations [("0002_b.sql", "y"), ("junk.sql", "z"), ("0001_a.sql", "x")]) ∧
    ({ number := 1, name := "a", filename := "0001_a.sql", sql_content := "x" } :
        MigrationFile).filename ≠ "junk.sql" :=
  ⟨by decide, rfl, by decide, by decide, by decide,
    (get_all_migrations_spec [("0002_b.sql", "y"), ("junk.sql", "z"), ("0001_a.sql", "x")]).2.2.2
      ("0001_a.sql", "x") (by decide) (by decide)
      { number := 1, name := "a", filename := "0001_a.sql", sql_content := "x" } (by decide),
    (get_all_migrations_spec [("0002_b.sql", "y"), ("junk.sql", "z"), ("0001_a.sql", "x")]).2.2.1
      ("junk.sql", "z") (by decide) rfl
      { number := 1, name := "a", filename := "0001_a.sql", sql_content := "x" } (by decide)⟩

/-- Counterexample to C5 as stated: with stored files `100_a.sql` and
`20_b.sql` — both parsing as `<number>_<name>` — enumeration is
lexicographic, yielding sequence numbers `[100, 20]`, which is not
ascending numeric order. -/
theorem get_all_migrations_counterexample :
    (get_all_migrations [("100_a.sql", ""), ("20_b.sql", "")]).map (fun m => m.number) =
      [100, 20] ∧
    ¬ ((get_all_migrations [("100_a.sql", ""), ("20_b.sql", "")]).map
        (fun m => m.number)).Pairwise (· ≤ ·) := by
  refine ⟨rfl, ?_⟩
  decide

/-- A digit character built from `m < 10` satisfies `isDigitChar`. -/
theorem isDigitChar_ofNat {m : Nat} (hm : m < 10) :
    isDigitChar (Char.ofNat (48 + m)) = true := by
  interval_cases m <;> decide

/-- Every character produced by `natDigitsAux` is a decimal digit. -/
theorem natDigitsAux_digits (fuel : Nat) :
    ∀ (n : Nat), ∀ c ∈ natDigitsAux fuel n, isDigitChar c = true := by
  induction fuel with
  | zero =>
    intro n c hc
    simp [natDigitsAux] at hc
  | succ fuel ih =>
    intro n c hc
    unfold natDigitsAux at hc
    by_cases hn : n < 10
    · rw [if_pos hn] at hc
      have hce := List.mem_singleton.mp hc
      subst hce
      exact isDigitChar_ofNat hn
    · rw [if_neg hn] at hc
      rcases List.mem_append.mp hc with h | h
      · exact ih _ c h
      · have hce := List.mem_singleton.mp h
        subst hce
        exact isDigitChar_ofNat (Nat.mod_lt _ (by omega))

/-- `natDigitsAux` emits at most `k` digits for `n < 10 ^ k`. -/
theorem natDigitsAux_length_le (k : Nat) :
    ∀ (fuel n : Nat), 1 ≤ k → n < 10 ^ k → (natDigitsAux fuel n).length ≤ k := by
  induction k with
  | zero =>
    intro fuel n h
    omega
  | succ k ih =>
    intro fuel n _ hn
    cases fuel with
    | zero => simp [natDigitsAux]
    | succ fuel =>
      unfold natDigitsAux
      by_cases h10 : n < 10
      · rw [if_pos h10]
        simp
      · rw [if_neg h10]
        have hk : 1 ≤ k := by
          by_contra hk0
          have hk' : k = 0 := by omega
          subst hk'
          have : (10 : Nat) ^ 1 = 10 := by norm_num
          omega
        have hdiv : n / 10 < 10 ^ k := by
          rw [Nat.div_lt_iff_lt_mul (by omega : 0 < 10)]
          have hp : (10 : Nat) ^ (k + 1) = 10 ^ k * 10 := pow_succ 10 k
          omega
        have hrec := ih fuel (n / 10) hk hdiv
        simp only [List.length_append, List.length_singleton]
        omega

/-- For `n ≤ 9999` the digit string has at most four characters. -/
theorem natToDigits_length_le_four {n : Nat} (hn : n ≤ 9999) :
    (natToDigits n).length ≤ 4 := by
  have h4 : n < 10 ^ 4 := by
    have : (10 : Nat) ^ 4 = 10000 := by norm_num
    omega
  exact natDigitsAux_length_le 4 (n + 1) n (by omega) h4

/-- For `n ≤ 9999` the zero-padded field is exactly four characters wide. -/
theorem pad4_length {n : Nat} (hn : n ≤ 9999) : (pad4 n).length = 4 := by
  have h := natToDigits_length_le_four hn
  unfold pad4
  simp only [List.length_append, List.length_replicate]
  omega

/-- Every character of the padded field is a decimal digit. -/
theorem pad4_digits (n : Nat) : ∀ c ∈ pad4 n, isDigitChar c = true := by
  intro c hc
  unfold pad4 at hc
  rcases List.mem_append.mp hc with h | h
  · have hce := List.eq_of_mem_replicate h
    subst hce
    decide
  · exact natDigitsAux_digits _ _ c h

/-- The substitution step only emits `[a-z0-9_]` characters. -/
theorem subBadToUnderscore_slug (l : List Char) :
    ∀ c ∈ subBadToUnderscore l, isSlugChar c = true := by
  intro c hc
  rcases List.mem_map.mp hc with ⟨a, _, rfl⟩
  by_cases h : isSlugChar a = true
  · rw [if_pos h]
    exact h
  · rw [if_neg h]
    decide

/-- Collapsing underscore runs preserves the `[a-z0-9_]` character class. -/
theorem collapseUnderscoreRuns_slug (prev : Bool) (l : List Char)
    (hl : ∀ c ∈ l, isSlugChar c = true) :
    ∀ c ∈ collapseUnderscoreRuns prev l, isSlugChar c = true := by
  induction l generalizing prev with
  | nil =>
    intro c hc
    simp [collapseUnderscoreRuns] at hc
  | cons a as ih =>
    intro c hc
    have htail : ∀ c ∈ as, isSlugChar c = true := fun c hc' => hl c (List.mem_cons_of_mem a hc')
    unfold collapseUnderscoreRuns at hc
    by_cases ha : (a == '_') = true
    · rw [if_pos ha] at hc
      by_cases hp : prev = true
      · rw [if_pos hp] at hc
        exact ih true htail c hc
      · rw [if_neg hp] at hc
        rcases List.mem_cons.mp hc with hce | hc'
        · subst hce
          decide
        · exact ih true htail c hc'
    · rw [if_neg ha] at hc
      rcases List.mem_cons.mp hc with hce | hc'
      · rw [hce]
        exact hl a (List.mem_cons_self a as)
      · exact ih false htail c hc'

/-- Members of `dropEndWhile p l` are members of `l`. -/
theorem mem_of_mem_dropEndWhile {p : Char → Bool} {l : List Char} {c : Char}
    (h : c ∈ dropEndWhile p l) : c ∈ l := by
  unfold dropEndWhile at h
  rw [List.mem_reverse] at h
  have h2 := (List.dropWhile_sublist (l := l.reverse) p).subset h
  exact List.mem_reverse.mp h2

/-- Every character surviving the whole naming pipeline is in `[a-z0-9_]`. -/
theorem cmnPipeline_slug (s : String) : ∀ c ∈ cmnPipeline s, isSlugChar c = true := by
  intro c hc
  simp only [cmnPipeline] at hc
  have hbase : ∀ c ∈ collapseUnderscoreRuns false
      (subBadToUnderscore (pyStripWs (s.data.map pyToLower))), isSlugChar c = true :=
    collapseUnderscoreRuns_slug false _ (subBadToUnderscore_slug _)
  have htrim : ∀ c ∈ trimUnderscores (collapseUnderscoreRuns false
      (subBadToUnderscore (pyStripWs (s.data.map pyToLower)))), isSlugChar c = true := by
    intro c hc'
    unfold trimUnderscores at hc'
    have h1 := mem_of_mem_dropEndWhile hc'
    exact hbase c ((List.dropWhile_sublist _).subset h1)
  split at hc
  · have h1 := mem_of_mem_dropEndWhile hc
    exact htrim c (List.take_subset _ _ h1)
  · exact htrim c hc

/-- The slug returned by `create_migration_name` is nonempty and stays in
the `[a-z0-9_]` class. -/
theorem create_migration_name_slug (s : String) :
    (create_migration_name s).data ≠ [] ∧
    ∀ c ∈ (create_migration_name s).data, isSlugChar c = true := by
  unfold create_migration_name
  by_cases h : (cmnPipeline s).isEmpty = true
  · rw [if_pos h]
    exact ⟨by decide, by decide⟩
  · rw [if_neg h]
    refine ⟨?_, cmnPipeline_slug s⟩
    simpa [List.isEmpty_iff] using h

/-- `takeWhile` over a satisfying prefix followed by a failing character
returns exactly the prefix. -/
theorem takeWhile_append_stop {p : Char → Bool} {xs : List Char} (ys : List Char) {y : Char}
    (hxs : ∀ c ∈ xs, p c = true) (hy : p y = false) :
    (xs ++ y :: ys).takeWhile p = xs := by
  induction xs with
  | nil => simp [List.takeWhile_cons, hy]
  | cons x xs ih =>
    have hx := hxs x (List.mem_cons_self x xs)
    simp only [List.cons_append, List.takeWhile_cons, hx, ite_true]
    rw [ih (fun c hc => hxs c (List.mem_cons_of_mem x hc))]

/-- A list of length four is an explicit four-element list. -/
theorem exists_four_of_length_four {α : Type} {l : List α} (h : l.length = 4) :
    ∃ a b c d, l = [a, b, c, d] := by
  cases l with
  | nil => simp at h
  | cons a l1 =>
    cases l1 with
    | nil => simp at h
    | cons b l2 =>
      cases l2 with
      | nil => simp at h
      | cons c l3 =>
        cases l3 with
        | nil => simp at h
        | cons d l4 =>
          cases l4 with
          | nil => exact ⟨a, b, c, d, rfl⟩
          | cons e l5 =>
            simp only [List.length_cons] at h
            omega

/-- C7 (amended): for every migration number between 1 and 9999 and every
slug produced by `create_migration_name`, the filename written by
`save_migration` matches `^\d{4}_[a-z0-9_]+\.sql$`. Beyond 9999 the
`{n:04d}` field widens past four digits and the pattern no longer matches
(see the counterexample). -/
theorem save_migration_filename_matches (n : Nat) (desc : String)
    (h1 : 1 ≤ n) (h2 : n ≤ 9999) :
    matchesMigrationPattern (save_migration_filename n (create_migration_name desc)) = true := by
  obtain ⟨hne, hslug⟩ := create_migration_name_slug desc
  have hlen := pad4_length h2
  have hdig := pad4_digits n
  obtain ⟨a, b, c, d, hp⟩ := exists_four_of_length_four hlen
  rw [hp] at hdig
  have ha := hdig a (by simp)
  have hb := hdig b (by simp)
  have hc := hdig c (by simp)
  have hd := hdig d (by simp)
  unfold save_migration_filename
  rw [hp]
  unfold matchesMigrationPattern
  simp only [List.cons_append, List.nil_append]
  rw [takeWhile_append_stop _ hslug (by decide : isSlugChar '.' = false)]
  rw [List.drop_left]
  simp [ha, hb, hc, hd, List.isEmpty_iff, hne]

/-- Witness for C7 (amended) at the spec's naming scenario. -/
theorem save_migration_filename_matches_witness :
    1 ≤ 2 ∧ 2 ≤ 9999 ∧
    save_migration_filename 2 (create_migration_name "Add Email Column!!") =
      "0002_add_email_column.sql" ∧
    matchesMigrationPattern
      (save_migration_filename 2 (create_migration_name "Add Email Column!!")) = true :=
  ⟨by decide, by decide, by decide,
    save_migration_filename_matches 2 "Add Email Column!!" (by decide) (by decide)⟩

/-- Counterexample to C7 as stated: at migration number 10000 the zero-padded
field is five digits wide and the filename no longer matches
`^\d{4}_[a-z0-9_]+\.sql$`. -/
theorem save_migration_filename_counterexample :
    save_migration_filename 10000 (create_migration_name "x") = "10000_x.sql" ∧
    matchesMigrationPattern "10000_x.sql" = false := by
  refine ⟨by decide, by decide⟩

/-- C3: `generate_sql` returns SQL text for every operation list without
raising an exception: the result is always the newline-join of the
per-operation blocks (first conjunct — every per-operation outcome,
including an exception raised by DDL compilation or by a malformed
definition slot, is consumed by the loop); an operation whose translation
raises contributes a WARNING comment block documenting the failure
(second conjunct); and an ALTER COLUMN operation that translates
contributes a comment block documenting the intended change instead of
executable SQL (third conjunct). -/
theorem generate_sql_fails_soft (compile : TableDef → Except String String)
    (opRepr : MigrationOperation → String) :
    (∀ ops, generate_sql compile opRepr ops =
      joinWith "\n" (ops.flatMap (perOpLines compile opRepr))) ∧
    (∀ op e, operation_to_sql compile op = .error e →
      perOpLines compile opRepr op =
        ["-- WARNING: Could not generate SQL for " ++ opRepr op ++ ": " ++ e, ""]) ∧
    (∀ op sql, op.operation_type = .alterColumn →
      operation_to_sql compile op = .ok sql →
      startsDashDash sql.data = true ∧
      perOpLines compile opRepr op = ["-- " ++ opRepr op, sql, ""]) := by
  refine ⟨?_, ?_, ?_⟩
  · intro ops
    cases ops with
    | nil => rfl
    | cons op rest => rfl
  · intro op e h
    unfold perOpLines
    rw [h]
  · intro op sql hty h
    have horig := h
    unfold operation_to_sql at h
    rw [hty] at h
    cases hold : asCol op.old_definition with
    | error e =>
      rw [hold] at h
      exact Except.noConfusion h
    | ok oldCol =>
      rw [hold] at h
      cases hnew : asCol op.new_definition with
      | error e =>
        rw [hnew] at h
        exact Except.noConfusion h
      | ok newCol =>
        rw [hnew] at h
        have hsql : ("-- ALTER COLUMN " ++ op.table_name ++ "." ++ optStr op.object_name ++ "\n"
            ++ "-- Note: Column alteration may require database-specific syntax\n"
            ++ "-- Old: " ++ oldCol.name ++ " " ++ oldCol.type ++ " "
            ++ (if oldCol.nullable then "NULL" else "NOT NULL") ++ "\n"
            ++ "-- New: " ++ newCol.name ++ " " ++ newCol.type ++ " "
            ++ (if newCol.nullable then "NULL" else "NOT NULL")) = sql := Except.ok.inj h
        constructor
        · rw [← hsql]
          simp only [String.data_append, List.append_assoc]
          rfl
        · unfold perOpLines
          rw [horig]
          have hne : sql.data.isEmpty = false := by
            rw [← hsql]
            simp only [String.data_append, List.append_assoc]
            rfl
          show (if sql.data.isEmpty = true then ([] : List String)
            else ["-- " ++ opRepr op, sql, ""]) = ["-- " ++ opRepr op, sql, ""]
          rw [hne]
          rfl

/-- Witness for C3: a failing compilation oracle on a CREATE TABLE
operation yields exactly the WARNING comment block, and the concrete ALTER
COLUMN operation yields its documentation comment block. -/
theorem generate_sql_fails_soft_witness :
    operation_to_sql (fun _ => Except.error "compile failed") bad_create_op =
      .error "compile failed" ∧
    perOpLines (fun _ => Except.error "compile failed") (fun _ => "<op>") bad_create_op =
      ["-- WARNING: Could not generate SQL for <op>: compile failed", ""] ∧
    alter_col_op.operation_type = .alterColumn ∧
    operation_to_sql (fun _ => Except.error "compile failed") alter_col_op =
      .ok "-- ALTER COLUMN users.email\n-- Note: Column alteration may require database-specific syntax\n-- Old: email VARCHAR(50) NULL\n-- New: email VARCHAR(100) NOT NULL" ∧
    (startsDashDash ("-- ALTER COLUMN users.email\n-- Note: Column alteration may require database-specific syntax\n-- Old: email VARCHAR(50) NULL\n-- New: email VARCHAR(100) NOT NULL" : String).data = true ∧
      perOpLines (fun _ => Except.error "compile failed") (fun _ => "<op>") alter_col_op =
        ["-- <op>",
          "-- ALTER COLUMN users.email\n-- Note: Column alteration may require database-specific syntax\n-- Old: email VARCHAR(50) NULL\n-- New: email VARCHAR(100) NOT NULL",
          ""]) :=
  ⟨rfl,
    (generate_sql_fails_soft (fun _ => Except.error "compile failed")
      (fun _ => "<op>")).2.1 bad_create_op "compile failed" rfl,
    rfl, rfl,
    (generate_sql_fails_soft (fun _ => Except.error "compile failed")
      (fun _ => "<op>")).2.2 alter_col_op
      "-- ALTER COLUMN users.email\n-- Note: Column alteration may require database-specific syntax\n-- Old: email VARCHAR(50) NULL\n-- New: email VARCHAR(100) NOT NULL"
      rfl rfl⟩

end Synq
